import Mathlib

/-
Shallow embedding of the notebook execution tracking and status-reporting
protocol of this repository.

Modelled source:
  * the Python executor script embedded in the TypeScript module
    (functions iso_time, get_system_info, create_shutdown_marker,
    initiate_instance_shutdown, extract_cell_error_output, update_status,
    class CellTrackingClient / CellTrackingEngine, and the __main__ driver);
  * the TypeScript status reader SageMakerService.getNotebookExecutionStatus
    and NotebookRunner.checkExecutionStatus.

Modelling conventions:
  * Timestamps are opaque strings produced by an injected clock
    `clock : Nat -> String`; the executor threads a call counter so that the
    i-th call of iso_time() yields `clock i`.  Real wall-clock behaviour is
    one particular choice of `clock`.
  * S3 puts, the local marker file, the sleep and the SageMaker stop request
    are recorded as events in an event trace (type Ev); claims about ordering
    and multiplicity of side effects are stated over that trace.
  * The stored status record is modelled by the structure StatusJson whose
    fields carry exactly the JSON keys the writer emits, together with the
    two keys (`outputPath`, `outputs`) that the reader consults but the
    writer never produces; those are Options left at `none` by the writer.
  * JavaScript `x || y` on optional strings is modelled by jsStrOr (empty
    string and undefined are falsy); Python truthiness of a string value is
    modelled by pyTruthy; Python `s[:n]` is String.take.
  * `new Date(s)` conversions in the reader are value preserving on the
    timestamp strings and are modelled as the identity.
-/

namespace NbExec

/-! ### String helpers -/

/-- Decides whether the first list occurs at the head of the second
(used to model Python substring containment). -/
def leadsWith : List Char → List Char → Bool
  | [], _ => true
  | _ :: _, [] => false
  | p :: ps, c :: cs => p == c && leadsWith ps cs

/-- Decides whether `pat` occurs as a contiguous sublist of the second list. -/
def occursIn (pat : List Char) : List Char → Bool
  | [] => leadsWith pat []
  | c :: cs => leadsWith pat (c :: cs) || occursIn pat cs

/-- Model of Python `pat in s` for strings. -/
def strHas (s pat : String) : Bool := occursIn pat.data s.data

/-- Model of Python `s.startswith(pat)`. -/
def strBegins (s pat : String) : Bool := leadsWith pat.data s.data

/-- Model of Python `s.upper()`: character-wise upper-casing (the relevant
variable names are ASCII). -/
def upperStr (s : String) : String := String.mk (s.data.map Char.toUpper)

/-- Python truthiness of a string (`if s:`): empty string is falsy. -/
def pyTruthy (s : String) : Bool := !(s == "")

/-- JavaScript `a || b` on two possibly absent strings: an absent value and
the empty string are both falsy. -/
def jsStrOr (a b : Option String) : Option String :=
  match a with
  | some s => if s == "" then b else some s
  | none => b

/-- Python guard `if x:` applied before storing an optional string field:
the key is only written when the string is non-empty. -/
def pyOptStr (o : Option String) : Option String :=
  match o with
  | some s => if s == "" then none else some s
  | none => none

/-- Python guard `if x:` applied before storing an optional list field:
the key is only written when the list is non-empty. -/
def pyOptList {α : Type} (o : Option (List α)) : Option (List α) :=
  match o with
  | some [] => none
  | some (a :: l) => some (a :: l)
  | none => none

/-- `os.path.basename`: the component after the last slash. -/
def baseName (p : String) : String := (p.splitOn "/").getLastD p

/-! ### Data model: notebook, outputs, error payloads -/

/-- One output item of a notebook cell, as inspected by
`extract_cell_error_output`. -/
inductive NbOutput where
  | errorOut (ename evalue : String) (tb : List String)
  | streamOut (name text : String)
  | otherOut
deriving DecidableEq, Repr

/-- One entry of the `cellErrorOutput` list built by
`extract_cell_error_output`. -/
inductive ErrItem where
  | errPayload (ename evalue : String) (tb : List String)
  | stderrText (text : String)
deriving DecidableEq, Repr

/-- A notebook cell.  `isCode` is `cell_type == 'code'`; `executionCount`
is the cell's `execution_count` (none = not yet executed); `runFails` and
`errMsg` model whether executing this cell raises a `CellExecutionError`
and with which message `str(e)`. -/
structure Cell where
  isCode : Bool
  executionCount : Option Nat
  source : String
  runFails : Bool
  errMsg : String
  outputs : List NbOutput
deriving DecidableEq, Repr

/-- A notebook: the ordered list of its cells. -/
structure Notebook where
  cells : List Cell
deriving DecidableEq, Repr

/-- `executionEnv` of the top-level error detail. -/
structure ExecEnvInfo where
  cwd : String
  user : String
  path : String
deriving DecidableEq, Repr

/-- The `errorDetail` JSON object.  The cell-error path fills
`cellIndex`/`cellSource`; the top-level handler fills `executionEnv`. -/
structure ErrorDetail where
  cellIndex : Option Nat
  cellSource : Option String
  errorType : String
  errorMessage : String
  executionEnv : Option ExecEnvInfo
deriving DecidableEq, Repr

/-- The `currentCell` JSON object of a status record. -/
structure CurrentCellInfo where
  index : Nat
  source : String
deriving DecidableEq, Repr

/-- The `systemInfo` JSON object built by `get_system_info`. -/
structure SystemInfo where
  platformStr : String
  pythonVersion : String
  processor : String
  memory : String
  diskSpace : String
  environment_variables : List (String × String)
deriving DecidableEq, Repr

/-- The host facts `get_system_info` and the top-level handler read
(platform strings, the process environment, cwd, user, PATH). -/
structure HostInfo where
  platformStr : String
  pythonVersion : String
  processor : String
  memory : String
  diskSpace : String
  environ : List (String × String)
  cwd : String
  user : String
  pathVar : String
deriving DecidableEq, Repr

/-- The filter `get_system_info` applies to one environment variable name:
keep it iff it does not start with `AWS_` (case sensitive, as in the code)
and its upper-cased form (`k.upper()`) contains neither `SECRET` nor `KEY`. -/
def env_not_secret (k : String) : Bool :=
  !(strBegins k "AWS_") && !(strHas (upperStr k) "SECRET") && !(strHas (upperStr k) "KEY")

/-- `get_system_info`: best-effort diagnostic snapshot with the
environment filtered by `env_not_secret`. -/
def get_system_info (h : HostInfo) : SystemInfo :=
  { platformStr := h.platformStr
    pythonVersion := h.pythonVersion
    processor := h.processor
    memory := h.memory
    diskSpace := h.diskSpace
    environment_variables := h.environ.filter (fun kv => env_not_secret kv.1) }

/-- `extract_cell_error_output`, inner scan over a cell's outputs:
error outputs become `errPayload`, stderr streams become `stderrText`. -/
def errItemsOf : List NbOutput → List ErrItem
  | [] => []
  | NbOutput.errorOut en ev tb :: rest => ErrItem.errPayload en ev tb :: errItemsOf rest
  | NbOutput.streamOut nm tx :: rest =>
      if nm == "stderr" then ErrItem.stderrText tx :: errItemsOf rest else errItemsOf rest
  | NbOutput.otherOut :: rest => errItemsOf rest

/-- `extract_cell_error_output`: returns the collected list, or None when it
is empty. -/
def extract_cell_error_output (c : Cell) : Option (List ErrItem) :=
  match errItemsOf c.outputs with
  | [] => none
  | a :: l => some (a :: l)

/-! ### The status record and `update_status` -/

/-- One entry of the `outputs` array of the reader's result type
(`NotebookCellOutput` in types.ts).  The executor never writes this key. -/
structure NbCellOutputItem where
  cellIndex : Nat
  outputType : String
  data : String
deriving DecidableEq, Repr

/-- The stored status record (`status.json`), with one field per JSON key
the executor writes, plus the two keys the reader consults that the writer
never produces (`outputPath`, `outputs`), kept at `none` by the writer. -/
structure StatusJson where
  executionId : String
  status : String
  startTime : String
  notebookPath : String
  expectedOutputPath : String
  outputPath : Option String
  outputs : Option (List NbCellOutputItem)
  cellsTotal : Nat
  cellsCompleted : Nat
  progress : Nat
  endTime : Option String
  currentCell : Option CurrentCellInfo
  errorMessage : Option String
  errorDetail : Option ErrorDetail
  stackTrace : Option String
  cellErrorOutput : Option (List ErrItem)
  systemInfo : Option SystemInfo
deriving DecidableEq, Repr

/-- `sum(1 for cell in nb.cells if cell.cell_type == 'code')`. -/
def total_cells (nb : Notebook) : Nat :=
  (nb.cells.filter (fun c => c.isCode)).length

/-- The count of code cells whose `execution_count` is present and not None. -/
def completed_cells (nb : Notebook) : Nat :=
  (nb.cells.filter (fun c => c.isCode && c.executionCount.isSome)).length

/-- `progress = 0 if total_cells == 0 else int(100 * completed_cells / total_cells)`;
Python `int()` on the non-negative quotient truncates, i.e. floors, which is
Nat division. -/
def progress_of (total completed : Nat) : Nat :=
  if total == 0 then 0 else 100 * completed / total

/-- The truncation applied to the current cell's source:
`source[:500] + ("..." if len(source) > 500 else "")`. -/
def truncate_source (s : String) : String :=
  if s.length > 500 then s.take 500 ++ "..." else s

/-- Terminal check used by the writer (`status == "COMPLETED" or status == "FAILED"`). -/
def isTerminalStatus (s : String) : Bool := s == "COMPLETED" || s == "FAILED"

/-- `update_status`: builds the status record from the notebook's current
state and uploads it (the upload itself is recorded by the caller as a
`statusWrite` event).  Returns the record together with the advanced
iso_time call counter (iso_time is called exactly once here, for `endTime`,
iff the status is terminal). -/
def update_status (clock : Nat → String) (t : Nat)
    (start_time notebook_path output_path execution_id : String)
    (nb : Notebook) (status : String) (error_message : Option String)
    (error_detail : Option ErrorDetail) (traceback_str : Option String)
    (current_cell_idx : Option Nat) (cell_error_output : Option (List ErrItem))
    (host : HostInfo) : StatusJson × Nat :=
  let total := total_cells nb
  let completed := completed_cells nb
  let prog := progress_of total completed
  let isTerm := isTerminalStatus status
  let currentCell : Option CurrentCellInfo :=
    match current_cell_idx with
    | none => none
    | some idx =>
      match nb.cells[idx]? with
      | none => none
      | some c =>
        if c.isCode then some { index := idx, source := truncate_source c.source } else none
  ({ executionId := execution_id
     status := status
     startTime := start_time
     notebookPath := notebook_path
     expectedOutputPath := output_path
     outputPath := none
     outputs := none
     cellsTotal := total
     cellsCompleted := completed
     progress := prog
     endTime := if isTerm then some (clock t) else none
     currentCell := currentCell
     errorMessage := pyOptStr error_message
     errorDetail := error_detail
     stackTrace := pyOptStr traceback_str
     cellErrorOutput := pyOptList cell_error_output
     systemInfo := if status == "FAILED" then some (get_system_info host) else none },
   if isTerm then t + 1 else t)

/-! ### Shutdown coordinator -/

/-- Content of `executions/{executionId}/shutdown_marker.json` as written by
`create_shutdown_marker`. -/
structure MarkerContent where
  reason : String
  timestamp : String
  executionId : String
deriving DecidableEq, Repr

/-- Observable side effects of the executor, in program order. -/
inductive Ev where
  | statusWrite (j : StatusJson)
  | markerWrite (bucket key : String) (m : MarkerContent)
  | localMarkerWrite (text : String)
  | sleepGrace (secs : Nat)
  | stopInstance (name : String)
  | partialUpload (bucket key : String)
  | exitProc (code : Nat)
deriving DecidableEq, Repr

/-- External failure modes and host identity facts relevant to
`create_shutdown_marker` / `initiate_instance_shutdown`:
whether the remote marker put raises, whether the local file write raises,
the value of `NOTEBOOK_INSTANCE_NAME`, whether the instance-metadata lookup
raises and what it returns, and whether the stop API call raises. -/
structure ShutdownEnv where
  markerPutFails : Bool
  localWriteFails : Bool
  instanceNameEnv : Option String
  metadataFails : Bool
  metadataName : String
  stopFails : Bool
deriving DecidableEq, Repr

/-- The well-known marker key `executions/{execution_id}/shutdown_marker.json`. -/
def shutdownMarkerKey (execution_id : String) : String :=
  "executions/" ++ execution_id ++ "/shutdown_marker.json"

/-- `create_shutdown_marker`: one try block; iso_time is read first, then the
S3 put, then the local `shutdown_reason.txt` write.  Any exception is caught
and logged and the function returns False (an S3 failure also skips the local
write, since both live in the same try).  Returns
(return value, advanced clock counter, emitted events). -/
def create_shutdown_marker (senv : ShutdownEnv) (clock : Nat → String) (t : Nat)
    (bucket execution_id reason : String) : Bool × Nat × List Ev :=
  let shutdown_time := clock t
  if senv.markerPutFails then
    (false, t + 1, [])
  else
    let m : MarkerContent :=
      { reason := reason, timestamp := shutdown_time, executionId := execution_id }
    let evs := [Ev.markerWrite bucket (shutdownMarkerKey execution_id) m]
    if senv.localWriteFails then
      (false, t + 1, evs)
    else
      (true, t + 1, evs ++ [Ev.localMarkerWrite (reason ++ " at " ++ shutdown_time)])

/-- Resolution of the instance name inside `initiate_instance_shutdown`:
the `NOTEBOOK_INSTANCE_NAME` environment variable if truthy, otherwise the
instance-metadata lookup (whose exception propagates to the outer except
and yields no name; a successful but falsy lookup also yields no name). -/
def resolveName (senv : ShutdownEnv) : Option String :=
  let fromEnv : Option String :=
    match senv.instanceNameEnv with
    | some n => if n == "" then none else some n
    | none => none
  match fromEnv with
  | some n => some n
  | none =>
    if senv.metadataFails then none
    else if senv.metadataName == "" then none
    else some senv.metadataName

/-- `initiate_instance_shutdown`: when a truthy bucket and execution id are
given, first call `create_shutdown_marker` (its failures are internal to it)
and sleep 5 seconds; then resolve the instance name and issue the stop
request.  A metadata-lookup exception or a falsy name means no stop request;
a stop-API exception is caught and turns the result False (the request was
still issued). -/
def markerPhaseOf (senv : ShutdownEnv) (clock : Nat → String) (t : Nat)
    (bucket execution_id : Option String) (reason : String) : Nat × List Ev :=
  match bucket, execution_id with
  | some b, some i =>
    if pyTruthy b && pyTruthy i then
      let r := create_shutdown_marker senv clock t b i reason
      (r.2.1, r.2.2 ++ [Ev.sleepGrace 5])
    else (t, [])
  | _, _ => (t, [])

def initiate_instance_shutdown (senv : ShutdownEnv) (clock : Nat → String) (t : Nat)
    (bucket execution_id : Option String) (reason : String) : Bool × Nat × List Ev :=
  let markerPhase : Nat × List Ev := markerPhaseOf senv clock t bucket execution_id reason
  match resolveName senv with
  | some n => (!senv.stopFails, markerPhase.1, markerPhase.2 ++ [Ev.stopInstance n])
  | none => (false, markerPhase.1, markerPhase.2)

/-! ### The cell-tracking executor run -/

/-- The fixed per-run arguments of the executor process (its argv), the host
facts and the external failure modes. -/
structure RunConfig where
  bucket : String
  key : String
  notebook_path : String
  output_path : String
  execution_id : String
  host : HostInfo
  senv : ShutdownEnv
  partialSaveFails : Bool
deriving Repr

/-- Mark cell `i` as executed (the kernel assigns it an execution count). -/
def setExecAt : List Cell → Nat → List Cell
  | [], _ => []
  | c :: cs, 0 => { c with executionCount := some ((c.executionCount.getD 0) + 1) } :: cs
  | c :: cs, n + 1 => c :: setExecAt cs n

/-- The `error_detail` dict built in `CellTrackingClient.execute_cell` on a
`CellExecutionError`: note `cellSource` is the raw, untruncated cell source. -/
def cellErrorDetail (i : Nat) (c : Cell) : ErrorDetail :=
  { cellIndex := some i
    cellSource := some c.source
    errorType := "CellExecutionError"
    errorMessage := c.errMsg
    executionEnv := none }

/-- Stand-in for `traceback.format_exc()`: an opaque non-empty string
derived from the error message. -/
def tracebackOf (msg : String) : String :=
  "Traceback (most recent call last): " ++ msg

/-- The failure value carried out of the cell loop by the re-raised
`CellExecutionError`. -/
structure CellFailure where
  idx : Nat
  msg : String
deriving DecidableEq, Repr

/-- The first code cell whose execution count is absent, with its index
(the scan of the top-level except handler). -/
def findUnexecAux : List Cell → Nat → Option (Nat × Cell)
  | [], _ => none
  | c :: cs, i =>
    if c.isCode && c.executionCount.isNone then some (i, c) else findUnexecAux cs (i + 1)

/-- The `error_detail` dict built in the top-level except handler. -/
def topErrorDetail (msg : String) (h : HostInfo) : ErrorDetail :=
  { cellIndex := none
    cellSource := none
    errorType := "CellExecutionError"
    errorMessage := msg
    executionEnv := some { cwd := h.cwd, user := h.user, path := h.pathVar } }

/-- The cell loop of `NotebookClient.execute` with the
`CellTrackingClient.execute_cell` override: for each cell, push a
pre-execution status update naming the cell, run it, and on success push a
post-execution update; on a `CellExecutionError`, push a FAILED record with
the full error context, best-effort upload the partial notebook, invoke the
shutdown coordinator and re-raise (which ends the loop).  `fuel` is the
number of remaining cells (the loop is bounded by the cell list).
Returns (mutated notebook, clock counter, events, carried failure). -/
def runFrom (cfg : RunConfig) (clock : Nat → String) (start_time : String) :
    Nat → Nat → Notebook → Nat → Notebook × Nat × List Ev × Option CellFailure
  | 0, _, nb, t => (nb, t, [], none)
  | fuel + 1, i, nb, t =>
    match nb.cells[i]? with
    | none => (nb, t, [], none)
    | some c =>
      let pre := update_status clock t start_time cfg.notebook_path cfg.output_path
        cfg.execution_id nb "RUNNING" none none none (some i) none cfg.host
      if c.isCode && c.runFails then
        let ed := cellErrorDetail i c
        let ceo := extract_cell_error_output c
        let fail := update_status clock pre.2 start_time cfg.notebook_path cfg.output_path
          cfg.execution_id nb "FAILED" (some c.errMsg) (some ed)
          (some (tracebackOf c.errMsg)) (some i) ceo cfg.host
        let pEvs := if cfg.partialSaveFails then [] else
          [Ev.partialUpload cfg.bucket
            ("executions/" ++ cfg.execution_id ++ "/partial_" ++ baseName cfg.output_path)]
        let sd := initiate_instance_shutdown cfg.senv clock fail.2
          (some cfg.bucket) (some cfg.execution_id)
          ("Cell execution failed at index " ++ toString i)
        (nb, sd.2.1,
          Ev.statusWrite pre.1 :: Ev.statusWrite fail.1 :: (pEvs ++ sd.2.2),
          some { idx := i, msg := c.errMsg })
      else
        let nb2 := if c.isCode then Notebook.mk (setExecAt nb.cells i) else nb
        let post := update_status clock pre.2 start_time cfg.notebook_path cfg.output_path
          cfg.execution_id nb2 "RUNNING" none none none (some i) none cfg.host
        let rest := runFrom cfg clock start_time fuel (i + 1) nb2 post.2
        (rest.1, rest.2.1,
          Ev.statusWrite pre.1 :: Ev.statusWrite post.1 :: rest.2.2.1,
          rest.2.2.2)

/-- The `__main__` driver: read the notebook, push the initial status, run
the cells, then either push COMPLETED and exit 0, or (in the except handler)
rebuild error detail, best-effort attribute the in-flight cell, push FAILED
again, best-effort upload the partial notebook, invoke the shutdown
coordinator and exit 1.  `clock 0` is the global `start_time`. -/
def mainRun (cfg : RunConfig) (clock : Nat → String) (nb0 : Notebook) : List Ev :=
  let start_time := clock 0
  let init := update_status clock 1 start_time cfg.notebook_path cfg.output_path
    cfg.execution_id nb0 "RUNNING" none none none none none cfg.host
  let run := runFrom cfg clock start_time nb0.cells.length 0 nb0 init.2
  let nbF := run.1
  match run.2.2.2 with
  | none =>
    let fin := update_status clock run.2.1 start_time cfg.notebook_path cfg.output_path
      cfg.execution_id nbF "COMPLETED" none none none none none cfg.host
    Ev.statusWrite init.1 :: (run.2.2.1 ++ [Ev.statusWrite fin.1, Ev.exitProc 0])
  | some f =>
    let ed := topErrorDetail f.msg cfg.host
    let fu := findUnexecAux nbF.cells 0
    let cidx := fu.map (fun p => p.1)
    let ceo := fu.bind (fun p => extract_cell_error_output p.2)
    let fail := update_status clock run.2.1 start_time cfg.notebook_path cfg.output_path
      cfg.execution_id nbF "FAILED" (some f.msg) (some ed) (some (tracebackOf f.msg))
      cidx ceo cfg.host
    let pEvs := if cfg.partialSaveFails then [] else
      [Ev.partialUpload cfg.bucket
        ("executions/" ++ cfg.execution_id ++ "/partial_execution.ipynb")]
    let sd := initiate_instance_shutdown cfg.senv clock fail.2
      (some cfg.bucket) (some cfg.execution_id)
      ("Notebook execution failed: " ++ f.msg.take 200)
    Ev.statusWrite init.1 ::
      (run.2.2.1 ++ (Ev.statusWrite fail.1 :: (pEvs ++ sd.2.2 ++ [Ev.exitProc 1])))

/-- The status records of a trace, in write order. -/
def statusSeq : List Ev → List StatusJson
  | [] => []
  | Ev.statusWrite j :: evs => j :: statusSeq evs
  | _ :: evs => statusSeq evs

/-- The shutdown-marker writes of a trace: (bucket, key, content). -/
def markerWrites : List Ev → List (String × String × MarkerContent)
  | [] => []
  | Ev.markerWrite b k m :: evs => (b, k, m) :: markerWrites evs
  | _ :: evs => markerWrites evs

/-! ### The status reader (SageMakerService.getNotebookExecutionStatus) -/

/-- The parsed shutdown-marker JSON as the reader sees it; every field is
optional because the reader probes both spellings of each key. -/
structure MarkerJson where
  reason : Option String
  shutdownReason : Option String
  timestamp : Option String
  shutdownTime : Option String
deriving DecidableEq, Repr

/-- The `NotebookExecutionResult` value the reader returns (types.ts).
Optional TS fields are Options; `isInstanceShutdown` is an Option because
the not-yet-written (PENDING) branch leaves it absent. -/
structure ExecResult where
  executionId : String
  status : String
  outputs : List NbCellOutputItem
  errorMessage : Option String
  startTime : Option String
  endTime : Option String
  notebookPath : String
  outputPath : String
  cellsTotal : Option Nat
  cellsCompleted : Option Nat
  progress : Option Nat
  currentCell : Option CurrentCellInfo
  errorDetail : Option ErrorDetail
  stackTrace : Option String
  cellErrorOutput : Option (List ErrItem)
  systemInfo : Option SystemInfo
  isInstanceShutdown : Option Bool
  shutdownReason : Option String
  shutdownTime : Option String
deriving DecidableEq, Repr

/-- The view the reader has of object storage for one execution id:
whether HeadObject on `status.json` succeeds; the combined outcome of
GetObject + body transform + JSON.parse on `status.json` (none = any of
those threw); and the combined outcome of GetObject + transform + parse on
`shutdown_marker.json` (none = absent, unreadable, empty body or unparseable
— all caught by the same catch in the source). -/
structure Store where
  statusHeadOk : Bool
  statusGet : Option StatusJson
  markerGet : Option MarkerJson
deriving DecidableEq, Repr

/-- The `shutdownInfo` object assembled from a successfully read and parsed
marker: `reason || shutdownReason` and
`(timestamp || shutdownTime) ? new Date(timestamp || shutdownTime) : undefined`. -/
structure ShutdownInfo where
  isInstanceShutdown : Bool
  shutdownReason : Option String
  shutdownTime : Option String
deriving DecidableEq, Repr

def shutdownInfoOf (m : MarkerJson) : ShutdownInfo :=
  { isInstanceShutdown := true
    shutdownReason := jsStrOr m.reason m.shutdownReason
    shutdownTime :=
      match jsStrOr m.timestamp m.shutdownTime with
      | some s => if s == "" then none else some s
      | none => none }

/-- The result returned when HeadObject on the status record fails: a
synthesized PENDING record with empty paths, an empty outputs list, the
current wall-clock time as startTime, and every other field absent. -/
def pendingResult (executionId now : String) : ExecResult :=
  { executionId := executionId
    status := "PENDING"
    outputs := []
    errorMessage := none
    startTime := some now
    endTime := none
    notebookPath := ""
    outputPath := ""
    cellsTotal := none
    cellsCompleted := none
    progress := none
    currentCell := none
    errorDetail := none
    stackTrace := none
    cellErrorOutput := none
    systemInfo := none
    isInstanceShutdown := none
    shutdownReason := none
    shutdownTime := none }

/-- `SageMakerService.getNotebookExecutionStatus`: if HeadObject on
`status.json` throws, return the PENDING placeholder; otherwise fetch and
parse the record (a failure there propagates to the caller); then probe the
shutdown marker (its absence or unreadability is swallowed) and assemble the
result, reading `statusJson.outputPath || ""` — a key `update_status` never
writes — and spreading the shutdown info over the last three fields. -/
def getNotebookExecutionStatus (executionId now : String) (store : Store) :
    Except Unit ExecResult :=
  if !store.statusHeadOk then
    Except.ok (pendingResult executionId now)
  else
    match store.statusGet with
    | none => Except.error ()
    | some j =>
      let sd : ShutdownInfo :=
        match store.markerGet with
        | some m => shutdownInfoOf m
        | none => { isInstanceShutdown := false, shutdownReason := none, shutdownTime := none }
      Except.ok
        { executionId := j.executionId
          status := j.status
          outputs := j.outputs.getD []
          errorMessage := j.errorMessage
          startTime := some j.startTime
          endTime := j.endTime
          notebookPath := j.notebookPath
          outputPath := (j.outputPath).getD ""
          cellsTotal := some j.cellsTotal
          cellsCompleted := some j.cellsCompleted
          progress := some j.progress
          currentCell := j.currentCell
          errorDetail := j.errorDetail
          stackTrace := j.stackTrace
          cellErrorOutput := j.cellErrorOutput
          systemInfo := j.systemInfo
          isInstanceShutdown := some sd.isInstanceShutdown
          shutdownReason := sd.shutdownReason
          shutdownTime := sd.shutdownTime }

/-- `NotebookRunner.checkExecutionStatus`: delegates to the service; the
`if (!status)` fallback in the source is unreachable because the service
resolves with an object or rejects, so the behaviour is pass-through. -/
def checkExecutionStatus (executionId now : String) (store : Store) :
    Except Unit ExecResult :=
  getNotebookExecutionStatus executionId now store

/-- The result with the three marker-derived fields blanked, used to state
that the marker lookup affects nothing else. -/
def stripShutdown (r : ExecResult) : ExecResult :=
  { r with isInstanceShutdown := none, shutdownReason := none, shutdownTime := none }

/-! ### Concrete evaluation inputs -/

/-- A concrete injective clock used for concrete evaluations. -/
def clockEx (n : Nat) : String := "T" ++ toString n

/-- A concrete host: the environment holds a benign variable, an `AWS_`
credential and a lowercase api key variable. -/
def hostEx : HostInfo :=
  { platformStr := "Linux-5.10"
    pythonVersion := "3.10.4"
    processor := "x86_64"
    memory := "15Gi"
    diskSpace := "80G"
    environ := [("PATH", "/usr/bin"), ("AWS_SECRET_ACCESS_KEY", "s3cr3t"),
                ("my_api_key", "k"), ("HOME", "/home/ec2-user")]
    cwd := "/home/ec2-user"
    user := "ec2-user"
    pathVar := "/usr/bin" }

/-- A concrete shutdown environment in which nothing fails and the instance
name is injected through the environment variable. -/
def senvEx : ShutdownEnv :=
  { markerPutFails := false
    localWriteFails := false
    instanceNameEnv := some "nb-instance-1"
    metadataFails := false
    metadataName := "i-0abc"
    stopFails := false }

/-- A concrete executor configuration. -/
def cfgEx : RunConfig :=
  { bucket := "out-bucket"
    key := "executions/e1/status.json"
    notebook_path := "s3://in-bucket/notebooks/e1/nb.ipynb"
    output_path := "s3://out-bucket/executions/e1/nb.ipynb"
    execution_id := "e1"
    host := hostEx
    senv := senvEx
    partialSaveFails := false }

/-- A fresh code cell that executes successfully. -/
def okCell (src : String) : Cell :=
  { isCode := true, executionCount := none, source := src,
    runFails := false, errMsg := "", outputs := [] }

/-- A fresh code cell whose execution raises. -/
def badCell (src msg : String) : Cell :=
  { isCode := true, executionCount := none, source := src,
    runFails := true, errMsg := msg,
    outputs := [NbOutput.errorOut "ZeroDivisionError" msg ["tb0", "tb1"]] }

/-- Two-cell notebook whose second cell fails. -/
def nbFail : Notebook := { cells := [okCell "print(1)", badCell "1/0" "division by zero"] }

/-- Three-cell notebook that completes. -/
def nbOk : Notebook := { cells := [okCell "a", okCell "b", okCell "c"] }

/-- A 600-character cell source. -/
def s600 : String := String.mk (List.replicate 600 'a')

/-- One-cell notebook whose single (600-character) cell fails. -/
def nb600 : Notebook := { cells := [badCell s600 "boom"] }

/-- The status record `update_status` produces for a RUNNING push with the
concrete configuration (used to exercise the reader against a stored record). -/
def jEx : StatusJson :=
  (update_status clockEx 1 "T0" cfgEx.notebook_path cfgEx.output_path "e1" nbOk
    "RUNNING" none none none none none hostEx).1

/-! ### Claim theorems -/

/-- C1.  The executor stores the destination of the executed notebook under
the JSON key `expectedOutputPath`, but the reader returns
`statusJson.outputPath || ""` to callers, so the `outputPath` field of every
status result read back from a record the executor wrote is the empty
string, not the stored destination: the §3 field `outputPath` does not
round-trip.  Evaluated at a concrete record. -/
theorem outputPath_lost_on_readback :
    jEx.expectedOutputPath = "s3://out-bucket/executions/e1/nb.ipynb"
    ∧ (getNotebookExecutionStatus "e1" "T9"
          { statusHeadOk := true, statusGet := some jEx, markerGet := none }).map
        (fun r => r.outputPath) = Except.ok ""
    ∧ ("" : String) ≠ "s3://out-bucket/executions/e1/nb.ipynb" := by
  refine ⟨rfl, rfl, ?_⟩
  decide

/-- C2 counterexample.  On a run whose second cell fails, the shutdown
marker is written twice — once by the cell-error path of
`CellTrackingClient.execute_cell` and once more when the re-raised exception
reaches the `__main__` except handler — refuting "written at most once over
the whole run"; both writes target the same well-known key. -/
theorem shutdown_marker_double_write_cex :
    (markerWrites (mainRun cfgEx clockEx nbFail)).length = 2
    ∧ (markerWrites (mainRun cfgEx clockEx nbFail)).map (fun w => w.2.1)
        = [shutdownMarkerKey "e1", shutdownMarkerKey "e1"] := by
  constructor <;> rfl

/-- C3 counterexample.  On the same failing run, the two terminal (FAILED)
status writes carry different `endTime` values ("T1" from the cell-error
push, "T3" from the top-level push), refuting "every subsequent write and
read carries ... the same endTime; a terminal record is never mutated". -/
theorem terminal_endTime_not_stable_cex :
    ((statusSeq (mainRun cfgEx clockEx nbFail)).filterMap
        (fun j => if isTerminalStatus j.status then some (j.status, j.endTime) else none))
      = [("FAILED", some "T1"), ("FAILED", some "T3")]
    ∧ (some "T1" : Option String) ≠ some "T3" := by
  constructor
  · rfl
  · decide

/-- C6 counterexample.  A failing cell whose source has 600 characters
produces a FAILED record whose `errorDetail.cellSource` still has all 600
characters: `execute_cell` stores `cell.source` raw in the error detail, so
the claimed 500-character truncation does not hold for
`errorDetail.cellSource` (the truncated form would have length 503). -/
theorem errorDetail_cellSource_untruncated_cex :
    (((statusSeq (mainRun cfgEx clockEx nb600))[2]?).bind (fun j => j.errorDetail))
      = some (cellErrorDetail 0 (badCell s600 "boom"))
    ∧ (cellErrorDetail 0 (badCell s600 "boom")).cellSource = some s600
    ∧ s600.length = 600
    ∧ (truncate_source s600).length = 503
    ∧ (600 : Nat) ≠ 503 := by
  have hlen : s600.length = 600 := by
    show (List.replicate 600 'a').length = 600
    exact List.length_replicate 600 'a'
  have e1 : (((statusSeq (mainRun cfgEx clockEx nb600))[2]?).bind (fun j => j.errorDetail))
      = some (cellErrorDetail 0 (badCell s600 "boom")) := rfl
  have e2 : (cellErrorDetail 0 (badCell s600 "boom")).cellSource = some s600 := rfl
  have hgen : ∀ (l : List Char) (n : Nat), n ≤ l.length →
      ((String.mk l).take n).length = n := by
    intro l n h
    show ((String.mk l).take n).data.length = n
    rw [String.data_take]
    show (List.take n l).length = n
    rw [List.length_take]
    omega
  have h500 : (s600.take 500).length = 500 := by
    have := hgen (List.replicate 600 'a') 500 (by rw [List.length_replicate]; norm_num)
    exact this
  have e4 : (truncate_source s600).length = 503 := by
    show (if s600.length > 500 then s600.take 500 ++ "..." else s600).length = 503
    rw [hlen, if_pos (by norm_num), String.length_append, h500,
      show ("..." : String).length = 3 from rfl]
  exact ⟨e1, e2, hlen, e4, by decide⟩

/-- C5.  Every record `update_status` pushes carries
`cellsTotal = (count of code cells)`, `cellsCompleted = (count of executed
code cells)` and `progress = floor(100 * cellsCompleted / cellsTotal)` when
`cellsTotal > 0`, and `progress = 0` when `cellsTotal = 0` (Nat division is
floor); in particular 3 of 10 gives 30 and a zero total gives 0 regardless
of the completed count. -/
theorem progress_formula :
    (∀ (clock : Nat → String) (t : Nat) (st np op eid : String) (nb : Notebook)
        (status : String) (em : Option String) (ed : Option ErrorDetail)
        (tb : Option String) (cci : Option Nat) (ceo : Option (List ErrItem))
        (host : HostInfo),
      ((update_status clock t st np op eid nb status em ed tb cci ceo host).1.cellsTotal
          = total_cells nb)
      ∧ ((update_status clock t st np op eid nb status em ed tb cci ceo host).1.cellsCompleted
          = completed_cells nb)
      ∧ ((update_status clock t st np op eid nb status em ed tb cci ceo host).1.progress
          = if total_cells nb = 0 then 0
            else 100 * completed_cells nb / total_cells nb))
    ∧ (∀ c : Nat, progress_of 0 c = 0)
    ∧ progress_of 10 3 = 30 := by
  refine ⟨?_, fun c => rfl, rfl⟩
  intro clock t st np op eid nb status em ed tb cci ceo host
  refine ⟨rfl, rfl, ?_⟩
  show progress_of (total_cells nb) (completed_cells nb) = _
  unfold progress_of
  by_cases h : total_cells nb = 0 <;> simp [h]

/-- C7.  When HeadObject on the status record fails (the record has not been
written yet), the reader resolves successfully with a PENDING result whose
paths are empty, whose outputs list is empty and whose progress fields are
absent, instead of propagating an error; `checkExecutionStatus` passes this
through unchanged. -/
theorem notfound_reads_as_pending :
    ∀ (eid now : String) (store : Store), store.statusHeadOk = false →
      getNotebookExecutionStatus eid now store = Except.ok (pendingResult eid now)
      ∧ checkExecutionStatus eid now store = Except.ok (pendingResult eid now)
      ∧ (pendingResult eid now).status = "PENDING"
      ∧ (pendingResult eid now).notebookPath = ""
      ∧ (pendingResult eid now).outputPath = ""
      ∧ (pendingResult eid now).outputs = []
      ∧ (pendingResult eid now).cellsTotal = none
      ∧ (pendingResult eid now).cellsCompleted = none
      ∧ (pendingResult eid now).progress = none := by
  intro eid now store h
  refine ⟨?_, ?_, rfl, rfl, rfl, rfl, rfl, rfl, rfl⟩ <;>
    simp [getNotebookExecutionStatus, checkExecutionStatus, h]

/-- A store in which the status record does not exist yet. -/
def storeNF : Store := { statusHeadOk := false, statusGet := none, markerGet := none }

/-- C7 witness at a concrete fresh execution id. -/
theorem notfound_reads_as_pending_witness :
    getNotebookExecutionStatus "e9" "T0" storeNF = Except.ok (pendingResult "e9" "T0") :=
  (notfound_reads_as_pending "e9" "T0" storeNF rfl).1

/-- C9.  Whenever a FAILED record carries a systemInfo snapshot, every
environment variable included in it has a name that does not start with
`AWS_` and whose upper-cased form contains neither `SECRET` nor `KEY` — for
every possible process environment (the filter of `get_system_info`). -/
theorem failed_systemInfo_env_redacted :
    ∀ (clock : Nat → String) (t : Nat) (st np op eid : String) (nb : Notebook)
      (em : Option String) (ed : Option ErrorDetail) (tb : Option String)
      (cci : Option Nat) (ceo : Option (List ErrItem)) (host : HostInfo)
      (si : SystemInfo),
      (update_status clock t st np op eid nb "FAILED" em ed tb cci ceo host).1.systemInfo
          = some si →
      ∀ kv ∈ si.environment_variables,
        strBegins kv.1 "AWS_" = false
        ∧ strHas (upperStr kv.1) "SECRET" = false
        ∧ strHas (upperStr kv.1) "KEY" = false := by
  intro clock t st np op eid nb em ed tb cci ceo host si hsi kv hkv
  have hsi' : get_system_info host = si := Option.some.inj hsi
  have hkv' : kv ∈ host.environ.filter (fun kv => env_not_secret kv.1) := by
    rw [show host.environ.filter (fun kv => env_not_secret kv.1)
          = si.environment_variables from congrArg SystemInfo.environment_variables hsi']
    exact hkv
  have hsec : env_not_secret kv.1 = true := (List.mem_filter.mp hkv').2
  unfold env_not_secret at hsec
  simp only [Bool.and_eq_true, Bool.not_eq_true'] at hsec
  exact ⟨hsec.1.1, hsec.1.2, hsec.2⟩

/-- C9 witness: the concrete environment of `hostEx` (which also contains
`AWS_SECRET_ACCESS_KEY` and `my_api_key`) retains `PATH`, and `PATH` passes
all three checks. -/
theorem failed_systemInfo_env_redacted_witness :
    strBegins ("PATH", "/usr/bin").1 "AWS_" = false
    ∧ strHas (upperStr ("PATH", "/usr/bin").1) "SECRET" = false
    ∧ strHas (upperStr ("PATH", "/usr/bin").1) "KEY" = false :=
  failed_systemInfo_env_redacted clockEx 1 "T0" "np" "op" "e1" nbOk
    none none none none none hostEx (get_system_info hostEx) rfl
    ("PATH", "/usr/bin") (by decide)

/-! ### Trace and counting lemmas -/

@[simp] theorem statusSeq_nil : statusSeq [] = [] := rfl

@[simp] theorem statusSeq_cons_status (j : StatusJson) (evs : List Ev) :
    statusSeq (Ev.statusWrite j :: evs) = j :: statusSeq evs := rfl

@[simp] theorem statusSeq_cons_marker (b k : String) (m : MarkerContent) (evs : List Ev) :
    statusSeq (Ev.markerWrite b k m :: evs) = statusSeq evs := rfl

@[simp] theorem statusSeq_cons_local (s : String) (evs : List Ev) :
    statusSeq (Ev.localMarkerWrite s :: evs) = statusSeq evs := rfl

@[simp] theorem statusSeq_cons_sleep (n : Nat) (evs : List Ev) :
    statusSeq (Ev.sleepGrace n :: evs) = statusSeq evs := rfl

@[simp] theorem statusSeq_cons_stop (s : String) (evs : List Ev) :
    statusSeq (Ev.stopInstance s :: evs) = statusSeq evs := rfl

@[simp] theorem statusSeq_cons_partial (b k : String) (evs : List Ev) :
    statusSeq (Ev.partialUpload b k :: evs) = statusSeq evs := rfl

@[simp] theorem statusSeq_cons_exit (c : Nat) (evs : List Ev) :
    statusSeq (Ev.exitProc c :: evs) = statusSeq evs := rfl

@[simp] theorem statusSeq_append (a b : List Ev) :
    statusSeq (a ++ b) = statusSeq a ++ statusSeq b := by
  induction a with
  | nil => rfl
  | cons e evs ih => cases e <;> simp [statusSeq, ih]

@[simp] theorem markerWrites_nil : markerWrites [] = [] := rfl

@[simp] theorem markerWrites_cons_status (j : StatusJson) (evs : List Ev) :
    markerWrites (Ev.statusWrite j :: evs) = markerWrites evs := rfl

@[simp] theorem markerWrites_cons_marker (b k : String) (m : MarkerContent) (evs : List Ev) :
    markerWrites (Ev.markerWrite b k m :: evs) = (b, k, m) :: markerWrites evs := rfl

@[simp] theorem markerWrites_cons_local (s : String) (evs : List Ev) :
    markerWrites (Ev.localMarkerWrite s :: evs) = markerWrites evs := rfl

@[simp] theorem markerWrites_cons_sleep (n : Nat) (evs : List Ev) :
    markerWrites (Ev.sleepGrace n :: evs) = markerWrites evs := rfl

@[simp] theorem markerWrites_cons_stop (s : String) (evs : List Ev) :
    markerWrites (Ev.stopInstance s :: evs) = markerWrites evs := rfl

@[simp] theorem markerWrites_cons_partial (b k : String) (evs : List Ev) :
    markerWrites (Ev.partialUpload b k :: evs) = markerWrites evs := rfl

@[simp] theorem markerWrites_cons_exit (c : Nat) (evs : List Ev) :
    markerWrites (Ev.exitProc c :: evs) = markerWrites evs := rfl

@[simp] theorem markerWrites_append (a b : List Ev) :
    markerWrites (a ++ b) = markerWrites a ++ markerWrites b := by
  induction a with
  | nil => rfl
  | cons e evs ih => cases e <;> simp [markerWrites, ih]

/-- The fields of every record `update_status` builds, read off the record
literal. -/
theorem update_status_fields (clock : Nat → String) (t : Nat)
    (st np op eid : String) (nb : Notebook) (status : String)
    (em : Option String) (ed : Option ErrorDetail) (tb : Option String)
    (cci : Option Nat) (ceo : Option (List ErrItem)) (host : HostInfo) :
    ((update_status clock t st np op eid nb status em ed tb cci ceo host).1.status = status)
    ∧ ((update_status clock t st np op eid nb status em ed tb cci ceo host).1.cellsTotal
        = total_cells nb)
    ∧ ((update_status clock t st np op eid nb status em ed tb cci ceo host).1.cellsCompleted
        = completed_cells nb)
    ∧ ((update_status clock t st np op eid nb status em ed tb cci ceo host).1.progress
        = progress_of (total_cells nb) (completed_cells nb)) :=
  ⟨rfl, rfl, rfl, rfl⟩

@[simp] theorem update_status_status (clock : Nat → String) (t : Nat)
    (st np op eid : String) (nb : Notebook) (status : String)
    (em : Option String) (ed : Option ErrorDetail) (tb : Option String)
    (cci : Option Nat) (ceo : Option (List ErrItem)) (host : HostInfo) :
    (update_status clock t st np op eid nb status em ed tb cci ceo host).1.status = status :=
  rfl

@[simp] theorem update_status_cellsCompleted (clock : Nat → String) (t : Nat)
    (st np op eid : String) (nb : Notebook) (status : String)
    (em : Option String) (ed : Option ErrorDetail) (tb : Option String)
    (cci : Option Nat) (ceo : Option (List ErrItem)) (host : HostInfo) :
    (update_status clock t st np op eid nb status em ed tb cci ceo host).1.cellsCompleted
      = completed_cells nb :=
  rfl

@[simp] theorem update_status_cellsTotal (clock : Nat → String) (t : Nat)
    (st np op eid : String) (nb : Notebook) (status : String)
    (em : Option String) (ed : Option ErrorDetail) (tb : Option String)
    (cci : Option Nat) (ceo : Option (List ErrItem)) (host : HostInfo) :
    (update_status clock t st np op eid nb status em ed tb cci ceo host).1.cellsTotal
      = total_cells nb :=
  rfl

@[simp] theorem update_status_progress (clock : Nat → String) (t : Nat)
    (st np op eid : String) (nb : Notebook) (status : String)
    (em : Option String) (ed : Option ErrorDetail) (tb : Option String)
    (cci : Option Nat) (ceo : Option (List ErrItem)) (host : HostInfo) :
    (update_status clock t st np op eid nb status em ed tb cci ceo host).1.progress
      = progress_of (total_cells nb) (completed_cells nb) :=
  rfl

/-- Counting executed code cells never exceeds counting code cells. -/
theorem completed_le_total (nb : Notebook) : completed_cells nb ≤ total_cells nb := by
  unfold completed_cells total_cells
  induction nb.cells with
  | nil => simp
  | cons c l ih =>
    simp only [List.filter_cons]
    cases h1 : c.isCode <;> cases h2 : c.executionCount.isSome <;>
      simp [h1, h2] <;> omega

/-- The derived progress never exceeds 100 once completed ≤ total. -/
theorem progress_le_100 (t c : Nat) (h : c ≤ t) : progress_of t c ≤ 100 := by
  unfold progress_of
  rcases Nat.eq_zero_or_pos t with h0 | hp
  · simp [h0]
  · have h1 : (t == 0) = false := by
      simp [Nat.pos_iff_ne_zero.mp hp]
    simp only [h1, Bool.false_eq_true, if_false]
    calc 100 * c / t ≤ 100 * t / t := Nat.div_le_div_right (Nat.mul_le_mul_left 100 h)
      _ = 100 := Nat.mul_div_cancel 100 hp

/-- Marking one cell as executed preserves the code-cell count and can only
increase the executed-code-cell count. -/
theorem counts_setExecAt (l : List Cell) (i : Nat) :
    ((setExecAt l i).filter (fun c => c.isCode)).length
        = (l.filter (fun c => c.isCode)).length
    ∧ (l.filter (fun c => c.isCode && c.executionCount.isSome)).length
        ≤ ((setExecAt l i).filter (fun c => c.isCode && c.executionCount.isSome)).length := by
  induction l generalizing i with
  | nil => simp [setExecAt]
  | cons c l ih =>
    cases i with
    | zero =>
      simp only [setExecAt, List.filter_cons]
      cases h1 : c.isCode <;> cases h2 : c.executionCount.isSome <;>
        simp [h1, h2] <;> omega
    | succ n =>
      simp only [setExecAt, List.filter_cons]
      have := ih n
      cases h1 : c.isCode <;> cases h2 : c.executionCount.isSome <;>
        simp [h1, h2] <;> omega

theorem total_cells_setExecAt (nb : Notebook) (i : Nat) :
    total_cells (Notebook.mk (setExecAt nb.cells i)) = total_cells nb :=
  (counts_setExecAt nb.cells i).1

theorem completed_cells_setExecAt (nb : Notebook) (i : Nat) :
    completed_cells nb ≤ completed_cells (Notebook.mk (setExecAt nb.cells i)) :=
  (counts_setExecAt nb.cells i).2

/-- "Non-decreasing from a floor": every element is at least the previous
one, and the first is at least `lo`. -/
def ascFrom : Nat → List Nat → Prop
  | _, [] => True
  | lo, x :: xs => lo ≤ x ∧ ascFrom x xs

theorem ascFrom_chain : ∀ (xs : List Nat) (lo : Nat),
    ascFrom lo xs → List.Chain' (· ≤ ·) xs
  | [], _, _ => List.chain'_nil
  | [_], _, _ => List.chain'_singleton _
  | x :: y :: ys, _, h =>
    List.chain'_cons.mpr ⟨h.2.1, ascFrom_chain (y :: ys) x h.2⟩

theorem ascFrom_mono {lo lo2 : Nat} (h : lo2 ≤ lo) :
    ∀ {xs : List Nat}, ascFrom lo xs → ascFrom lo2 xs
  | [], _ => trivial
  | _ :: _, hx => ⟨le_trans h hx.1, hx.2⟩

theorem ascFrom_append_of : ∀ (xs : List Nat) (lo m : Nat) (ys : List Nat),
    ascFrom lo xs → (∀ x ∈ xs, x ≤ m) → ascFrom m ys → lo ≤ m →
    ascFrom lo (xs ++ ys)
  | [], lo, m, ys, _, _, h3, h4 => by
    simpa using ascFrom_mono h4 h3
  | x :: xs, lo, m, ys, h1, h2, h3, _ => by
    refine ⟨h1.1, ?_⟩
    exact ascFrom_append_of xs x m ys h1.2
      (fun z hz => h2 z (List.mem_cons_of_mem x hz)) h3 (h2 x (List.mem_cons_self x xs))

/-- C10.  On a successful status read, `isInstanceShutdown` is true exactly
when the shutdown marker was fetched and parsed successfully, in which case
the marker's (non-empty) reason and timestamp are returned; when the marker
is absent or unreadable the read still succeeds with
`isInstanceShutdown = false` and no shutdown fields; and stripping the three
shutdown fields yields the same result as a read with no marker at all, so
no other field is affected by the marker lookup. -/
theorem marker_readback_shutdown_fields :
    ∀ (eid now : String) (store : Store) (j : StatusJson),
      store.statusHeadOk = true → store.statusGet = some j →
      ∃ r r' : ExecResult,
        getNotebookExecutionStatus eid now store = Except.ok r
        ∧ getNotebookExecutionStatus eid now
            { statusHeadOk := true, statusGet := some j, markerGet := none }
            = Except.ok r'
        ∧ r.isInstanceShutdown = some store.markerGet.isSome
        ∧ (store.markerGet = none → r.shutdownReason = none ∧ r.shutdownTime = none)
        ∧ (∀ m, store.markerGet = some m →
            r.shutdownReason = jsStrOr m.reason m.shutdownReason
            ∧ (∀ ts, m.timestamp = some ts → ts ≠ "" → r.shutdownTime = some ts))
        ∧ stripShutdown r = stripShutdown r' := by
  intro eid now store j h1 h2
  obtain ⟨sh, sg, mg⟩ := store
  simp only at h1 h2
  subst h1; subst h2
  cases mg with
  | none =>
    refine ⟨_, _, rfl, rfl, rfl, fun _ => ⟨rfl, rfl⟩, ?_, rfl⟩
    intro m hm
    exact absurd hm (by simp)
  | some m =>
    refine ⟨_, _, rfl, rfl, rfl, ?_, ?_, rfl⟩
    · intro hc
      exact absurd hc (by simp)
    · intro m' hm'
      have hmm : m = m' := by injection hm'
      subst hmm
      refine ⟨rfl, ?_⟩
      intro ts hts hne
      show (shutdownInfoOf m).shutdownTime = some ts
      have hb : (ts == "") = false := by
        simp [hne]
      simp [shutdownInfoOf, jsStrOr, hts, hb]

/-- A concrete parsed shutdown marker as `create_shutdown_marker` writes it. -/
def mEx : MarkerJson :=
  { reason := some "Cell execution failed at index 1"
    shutdownReason := none
    timestamp := some "T2"
    shutdownTime := none }

/-- A store holding a status record and a readable shutdown marker. -/
def storeM : Store := { statusHeadOk := true, statusGet := some jEx, markerGet := some mEx }

/-- C10 witness: with a concrete stored record and marker, the read reports
the shutdown with the marker's reason and timestamp. -/
theorem marker_readback_shutdown_fields_witness :
    ∃ r : ExecResult,
      getNotebookExecutionStatus "e1" "T9" storeM = Except.ok r
      ∧ r.isInstanceShutdown = some true
      ∧ r.shutdownReason = some "Cell execution failed at index 1"
      ∧ r.shutdownTime = some "T2" := by
  obtain ⟨r, r', hr, _hr', hi, _hn, hs, _hst⟩ :=
    marker_readback_shutdown_fields "e1" "T9" storeM jEx rfl rfl
  refine ⟨r, hr, hi, ?_, (hs mEx rfl).2 "T2" rfl (by decide)⟩
  rw [(hs mEx rfl).1]
  rfl

/-- C8.  For every combination of marker-write failures, once the instance
name resolves, `initiate_instance_shutdown` still issues the stop request:
the trace is exactly (whatever marker writes succeeded) ++ [5-second grace
sleep, stop request], the events before the sleep are only marker writes,
and a failing remote marker put leaves no marker events at all — yet the
stop request is still last. -/
theorem shutdown_order_and_resilience :
    ∀ (senv : ShutdownEnv) (clock : Nat → String) (t : Nat) (bucket eid reason n : String),
      bucket ≠ "" → eid ≠ "" → resolveName senv = some n →
      ∃ mEvs : List Ev,
        initiate_instance_shutdown senv clock t (some bucket) (some eid) reason
          = (!senv.stopFails, t + 1, mEvs ++ [Ev.sleepGrace 5, Ev.stopInstance n])
        ∧ mEvs = (create_shutdown_marker senv clock t bucket eid reason).2.2
        ∧ (∀ e ∈ mEvs,
            (∃ b k m, e = Ev.markerWrite b k m) ∨ (∃ s, e = Ev.localMarkerWrite s))
        ∧ (senv.markerPutFails = true → mEvs = []) := by
  intro senv clock t bucket eid reason n hb he hr
  have hbt : pyTruthy bucket = true := by simp [pyTruthy, hb]
  have het : pyTruthy eid = true := by simp [pyTruthy, he]
  obtain ⟨mpf, lwf, ine, mdf, mdn, spf⟩ := senv
  refine ⟨(create_shutdown_marker ⟨mpf, lwf, ine, mdf, mdn, spf⟩ clock t bucket eid reason).2.2,
    ?_, rfl, ?_, ?_⟩
  · simp only [initiate_instance_shutdown, markerPhaseOf, hbt, het, hr, Bool.and_self]
    cases mpf <;> cases lwf <;>
      simp [create_shutdown_marker, List.append_assoc]
  · cases mpf <;> cases lwf <;>
      simp [create_shutdown_marker]
  · intro h
    simp only at h
    subst h
    simp [create_shutdown_marker]

/-- A shutdown environment whose remote marker put raises. -/
def senvPutFail : ShutdownEnv :=
  { markerPutFails := true
    localWriteFails := false
    instanceNameEnv := some "nb-1"
    metadataFails := false
    metadataName := ""
    stopFails := false }

/-- C8 witness: even with the remote marker put failing, the stop request is
still issued after the grace sleep, and no marker events are produced. -/
theorem shutdown_order_and_resilience_witness :
    ∃ mEvs : List Ev,
      initiate_instance_shutdown senvPutFail clockEx 7 (some "b") (some "e1") "r"
        = (!senvPutFail.stopFails, 7 + 1, mEvs ++ [Ev.sleepGrace 5, Ev.stopInstance "nb-1"])
      ∧ mEvs = (create_shutdown_marker senvPutFail clockEx 7 "b" "e1" "r").2.2
      ∧ (∀ e ∈ mEvs,
          (∃ b k m, e = Ev.markerWrite b k m) ∨ (∃ s, e = Ev.localMarkerWrite s))
      ∧ (senvPutFail.markerPutFails = true → mEvs = []) :=
  shutdown_order_and_resilience senvPutFail clockEx 7 "b" "e1" "r" "nb-1"
    (by decide) (by decide) rfl

/-! ### Shape of the shutdown phase inside the executor traces -/

theorem statusSeq_create_shutdown_marker (senv : ShutdownEnv) (clock : Nat → String)
    (t : Nat) (b i r : String) :
    statusSeq (create_shutdown_marker senv clock t b i r).2.2 = [] := by
  obtain ⟨mpf, lwf, ine, mdf, mdn, spf⟩ := senv
  cases mpf <;> cases lwf <;> simp [create_shutdown_marker]

theorem statusSeq_markerPhaseOf (senv : ShutdownEnv) (clock : Nat → String) (t : Nat)
    (b i : Option String) (r : String) :
    statusSeq (markerPhaseOf senv clock t b i r).2 = [] := by
  cases b with
  | none => simp [markerPhaseOf]
  | some bs =>
    cases i with
    | none => simp [markerPhaseOf]
    | some is =>
      by_cases h : (pyTruthy bs && pyTruthy is) = true
      · simp [markerPhaseOf, h, statusSeq_create_shutdown_marker]
      · simp [markerPhaseOf, h]

theorem statusSeq_initiate (senv : ShutdownEnv) (clock : Nat → String) (t : Nat)
    (b i : Option String) (r : String) :
    statusSeq (initiate_instance_shutdown senv clock t b i r).2.2 = [] := by
  unfold initiate_instance_shutdown
  cases hrn : resolveName senv <;>
    simp [hrn, statusSeq_markerPhaseOf]

theorem markerWrites_create_shutdown_marker (senv : ShutdownEnv) (clock : Nat → String)
    (t : Nat) (b i r : String) :
    (markerWrites (create_shutdown_marker senv clock t b i r).2.2).length ≤ 1
    ∧ ∀ w ∈ markerWrites (create_shutdown_marker senv clock t b i r).2.2,
        w.2.1 = shutdownMarkerKey i := by
  obtain ⟨mpf, lwf, ine, mdf, mdn, spf⟩ := senv
  cases mpf <;> cases lwf <;> simp [create_shutdown_marker]

theorem markerWrites_markerPhaseOf (senv : ShutdownEnv) (clock : Nat → String) (t : Nat)
    (b : Option String) (i : String) (r : String) :
    (markerWrites (markerPhaseOf senv clock t b (some i) r).2).length ≤ 1
    ∧ ∀ w ∈ markerWrites (markerPhaseOf senv clock t b (some i) r).2,
        w.2.1 = shutdownMarkerKey i := by
  cases b with
  | none => simp [markerPhaseOf]
  | some bs =>
    by_cases h : (pyTruthy bs && pyTruthy i) = true
    · have := markerWrites_create_shutdown_marker senv clock t bs i r
      simpa [markerPhaseOf, h] using this
    · simp [markerPhaseOf, h]

theorem markerWrites_initiate (senv : ShutdownEnv) (clock : Nat → String) (t : Nat)
    (b : Option String) (i : String) (r : String) :
    (markerWrites (initiate_instance_shutdown senv clock t b (some i) r).2.2).length ≤ 1
    ∧ ∀ w ∈ markerWrites (initiate_instance_shutdown senv clock t b (some i) r).2.2,
        w.2.1 = shutdownMarkerKey i := by
  unfold initiate_instance_shutdown
  have := markerWrites_markerPhaseOf senv clock t b i r
  cases hrn : resolveName senv <;>
    simpa [hrn] using this

/-! ### The executor run invariant (monotone progress) -/

@[simp] theorem isTerminal_running : isTerminalStatus "RUNNING" = false := rfl

@[simp] theorem isTerminal_failed : isTerminalStatus "FAILED" = true := rfl

@[simp] theorem isTerminal_completed : isTerminalStatus "COMPLETED" = true := rfl

@[simp] theorem update_status_snd (clock : Nat → String) (t : Nat)
    (st np op eid : String) (nb : Notebook) (status : String)
    (em : Option String) (ed : Option ErrorDetail) (tb : Option String)
    (cci : Option Nat) (ceo : Option (List ErrItem)) (host : HostInfo) :
    (update_status clock t st np op eid nb status em ed tb cci ceo host).2
      = if isTerminalStatus status then t + 1 else t := rfl

theorem runFrom_inv (cfg : RunConfig) (clock : Nat → String) (st : String) :
    ∀ (fuel i : Nat) (nb : Notebook) (t : Nat),
      ascFrom (completed_cells nb)
        ((statusSeq (runFrom cfg clock st fuel i nb t).2.2.1).map (fun j => j.cellsCompleted))
      ∧ (∀ x ∈ (statusSeq (runFrom cfg clock st fuel i nb t).2.2.1).map
            (fun j => j.cellsCompleted),
          x ≤ completed_cells (runFrom cfg clock st fuel i nb t).1)
      ∧ completed_cells nb ≤ completed_cells (runFrom cfg clock st fuel i nb t).1
      ∧ (∀ j ∈ statusSeq (runFrom cfg clock st fuel i nb t).2.2.1,
          j.cellsCompleted ≤ j.cellsTotal ∧ j.progress ≤ 100) := by
  intro fuel
  induction fuel with
  | zero =>
    intro i nb t
    simp [runFrom, ascFrom]
  | succ fuel ih =>
    intro i nb t
    cases hc : nb.cells[i]? with
    | none =>
      simp [runFrom, hc, ascFrom]
    | some c =>
      by_cases hf : (c.isCode && c.runFails) = true
      · by_cases hp : cfg.partialSaveFails = true <;>
        · simp only [runFrom, hc, hf, if_true]
          simp [hp, ascFrom, statusSeq_initiate, completed_le_total,
            progress_le_100 _ _ (completed_le_total nb)]
      · cases hcode : c.isCode with
        | false =>
          obtain ⟨ih1, ih2, ih3, ih4⟩ := ih (i + 1) nb t
          simp only [runFrom, hc, hf, if_false, hcode]
          simp [hcode, hf, ascFrom, completed_le_total,
            progress_le_100 _ _ (completed_le_total nb)]
          exact ⟨ih1, ⟨ih3, fun a ha => ih2 _ (List.mem_map_of_mem _ ha)⟩, ih3, ih4⟩
        | true =>
          have hrf : c.runFails = false := by
            cases hr2 : c.runFails
            · rfl
            · exact absurd (by simp [hcode, hr2]) hf
          have hle : completed_cells nb
              ≤ completed_cells (Notebook.mk (setExecAt nb.cells i)) :=
            completed_cells_setExecAt nb i
          obtain ⟨ih1, ih2, ih3, ih4⟩ := ih (i + 1) (Notebook.mk (setExecAt nb.cells i)) t
          simp only [runFrom, hc, hf, if_false, hcode, hrf]
          simp [hcode, hrf, ascFrom, completed_le_total,
            progress_le_100 _ _ (completed_le_total nb),
            progress_le_100 _ _ (completed_le_total (Notebook.mk (setExecAt nb.cells i)))]
          exact ⟨⟨hle, ih1⟩,
            ⟨le_trans hle ih3, ih3, fun a ha => ih2 _ (List.mem_map_of_mem _ ha)⟩,
            le_trans hle ih3, ih4⟩

/-- C4.  Along every executor run, the sequence of `cellsCompleted` values
over successive status pushes is non-decreasing, `cellsCompleted` never
exceeds `cellsTotal` (in particular whenever `cellsTotal > 0`), and the
`progress` of every pushed record lies between 0 and 100 inclusive. -/
theorem progress_monotone_and_bounded :
    ∀ (cfg : RunConfig) (clock : Nat → String) (nb0 : Notebook),
      List.Chain' (fun a b => a ≤ b)
        ((statusSeq (mainRun cfg clock nb0)).map (fun j => j.cellsCompleted))
      ∧ (∀ j ∈ statusSeq (mainRun cfg clock nb0),
          (0 < j.cellsTotal → j.cellsCompleted ≤ j.cellsTotal)
          ∧ 0 ≤ j.progress ∧ j.progress ≤ 100) := by
  intro cfg clock nb0
  obtain ⟨ih1, ih2, ih3, ih4⟩ :=
    runFrom_inv cfg clock (clock 0) nb0.cells.length 0 nb0 1
  unfold mainRun
  dsimp only
  have hinit : (update_status clock 1 (clock 0) cfg.notebook_path cfg.output_path
      cfg.execution_id nb0 "RUNNING" none none none none none cfg.host).2 = 1 := rfl
  rw [hinit]
  cases herr : (runFrom cfg clock (clock 0) nb0.cells.length 0 nb0 1).2.2.2 with
  | none =>
    simp only [herr, statusSeq_cons_status, statusSeq_append, statusSeq_cons_exit,
      statusSeq_nil, List.map_cons, List.map_append, List.map_nil,
      update_status_cellsCompleted, update_status_cellsTotal, update_status_progress,
      List.append_nil]
    constructor
    · refine ascFrom_chain _ (completed_cells nb0) ⟨le_refl _, ?_⟩
      exact ascFrom_append_of _ (completed_cells nb0)
        (completed_cells (runFrom cfg clock (clock 0) nb0.cells.length 0 nb0 1).1) _
        ih1 ih2 ⟨le_refl _, trivial⟩ ih3
    · intro j hj
      simp only [List.mem_cons, List.mem_append, List.mem_singleton] at hj
      rcases hj with hj | hj | hj | hj
      · subst hj
        exact ⟨fun _ => completed_le_total nb0, Nat.zero_le _,
          by simpa using progress_le_100 _ _ (completed_le_total nb0)⟩
      · exact ⟨fun _ => (ih4 j hj).1, Nat.zero_le _, (ih4 j hj).2⟩
      · subst hj
        refine ⟨fun _ => completed_le_total _, Nat.zero_le _, ?_⟩
        simpa using progress_le_100 _ _
          (completed_le_total (runFrom cfg clock (clock 0) nb0.cells.length 0 nb0 1).1)
      · exact absurd hj (List.not_mem_nil j)
  | some f =>
    have hclose : ∀ L : List StatusJson,
        (∀ j ∈ L, j.cellsCompleted ≤ j.cellsTotal ∧ j.progress ≤ 100) →
        ascFrom (completed_cells nb0) (L.map (fun j => j.cellsCompleted)) →
        (∀ x ∈ L.map (fun j => j.cellsCompleted),
          x ≤ completed_cells (runFrom cfg clock (clock 0) nb0.cells.length 0 nb0 1).1) →
        (List.Chain' (fun a b => a ≤ b)
          (completed_cells nb0 ::
            (L.map (fun j => j.cellsCompleted) ++
              [completed_cells (runFrom cfg clock (clock 0) nb0.cells.length 0 nb0 1).1]))) := by
      intro L _ hasc hbnd
      refine ascFrom_chain _ (completed_cells nb0) ⟨le_refl _, ?_⟩
      exact ascFrom_append_of _ (completed_cells nb0)
        (completed_cells (runFrom cfg clock (clock 0) nb0.cells.length 0 nb0 1).1) _
        hasc hbnd ⟨le_refl _, trivial⟩ ih3
    by_cases hp : cfg.partialSaveFails = true
    · simp only [herr, hp, statusSeq_cons_status, statusSeq_append, statusSeq_cons_exit,
        statusSeq_nil, List.map_cons, List.map_append, List.map_nil,
        update_status_cellsCompleted, update_status_cellsTotal, update_status_progress,
        List.append_nil, if_true, statusSeq_initiate, statusSeq_cons_partial]
      refine ⟨hclose _ ih4 ih1 ih2, ?_⟩
      intro j hj
      simp only [List.mem_cons, List.mem_append, List.mem_singleton] at hj
      rcases hj with hj | hj | hj | hj
      · subst hj
        exact ⟨fun _ => completed_le_total nb0, Nat.zero_le _,
          by simpa using progress_le_100 _ _ (completed_le_total nb0)⟩
      · exact ⟨fun _ => (ih4 j hj).1, Nat.zero_le _, (ih4 j hj).2⟩
      · subst hj
        refine ⟨fun _ => completed_le_total _, Nat.zero_le _, ?_⟩
        simpa using progress_le_100 _ _
          (completed_le_total (runFrom cfg clock (clock 0) nb0.cells.length 0 nb0 1).1)
      · exact absurd hj (List.not_mem_nil j)
    · simp only [herr, hp, statusSeq_cons_status, statusSeq_append, statusSeq_cons_exit,
        statusSeq_nil, List.map_cons, List.map_append, List.map_nil,
        update_status_cellsCompleted, update_status_cellsTotal, update_status_progress,
        List.append_nil, if_false, statusSeq_initiate, statusSeq_cons_partial]
      refine ⟨hclose _ ih4 ih1 ih2, ?_⟩
      intro j hj
      simp only [List.mem_cons, List.mem_append, List.mem_singleton] at hj
      rcases hj with hj | hj | hj | hj
      · subst hj
        exact ⟨fun _ => completed_le_total nb0, Nat.zero_le _,
          by simpa using progress_le_100 _ _ (completed_le_total nb0)⟩
      · exact ⟨fun _ => (ih4 j hj).1, Nat.zero_le _, (ih4 j hj).2⟩
      · subst hj
        refine ⟨fun _ => completed_le_total _, Nat.zero_le _, ?_⟩
        simpa using progress_le_100 _ _
          (completed_le_total (runFrom cfg clock (clock 0) nb0.cells.length 0 nb0 1).1)
      · exact absurd hj (List.not_mem_nil j)

/-- The initial status record of the happy-path run used as a concrete
member of its status sequence. -/
def jW : StatusJson :=
  (update_status clockEx 1 (clockEx 0) cfgEx.notebook_path cfgEx.output_path
    cfgEx.execution_id nbOk "RUNNING" none none none none none cfgEx.host).1

/-- C4 witness: the bounds hold at a concrete record of a concrete run. -/
theorem progress_monotone_and_bounded_witness :
    (0 < jW.cellsTotal → jW.cellsCompleted ≤ jW.cellsTotal)
    ∧ 0 ≤ jW.progress ∧ jW.progress ≤ 100 :=
  (progress_monotone_and_bounded cfgEx clockEx nbOk).2 jW (by decide)

/-! ### Status-value shape of executor traces (terminal stability) -/

/-- Every status record the cell loop pushes is RUNNING, except that a cell
failure makes the trace end with exactly one FAILED record. -/
theorem runFrom_status_shape (cfg : RunConfig) (clock : Nat → String) (st : String) :
    ∀ (fuel i : Nat) (nb : Notebook) (t : Nat),
      ((runFrom cfg clock st fuel i nb t).2.2.2 = none →
        ∀ j ∈ statusSeq (runFrom cfg clock st fuel i nb t).2.2.1, j.status = "RUNNING")
      ∧ (∀ f, (runFrom cfg clock st fuel i nb t).2.2.2 = some f →
          ∃ pre last, statusSeq (runFrom cfg clock st fuel i nb t).2.2.1 = pre ++ [last]
            ∧ (∀ j ∈ pre, j.status = "RUNNING") ∧ last.status = "FAILED") := by
  intro fuel
  induction fuel with
  | zero =>
    intro i nb t
    constructor
    · intro _ j hj
      simp [runFrom] at hj
    · intro f hf
      simp [runFrom] at hf
  | succ fuel ih =>
    intro i nb t
    cases hc : nb.cells[i]? with
    | none =>
      constructor
      · intro _ j hj
        simp [runFrom, hc] at hj
      · intro f hf
        simp [runFrom, hc] at hf
    | some c =>
      by_cases hf : (c.isCode && c.runFails) = true
      · constructor
        · intro hnone
          simp [runFrom, hc, hf] at hnone
        · intro f hsome
          refine ⟨[(update_status clock t st cfg.notebook_path cfg.output_path
              cfg.execution_id nb "RUNNING" none none none (some i) none cfg.host).1],
            (update_status clock t st cfg.notebook_path cfg.output_path
              cfg.execution_id nb "FAILED" (some c.errMsg) (some (cellErrorDetail i c))
              (some (tracebackOf c.errMsg)) (some i) (extract_cell_error_output c)
              cfg.host).1, ?_, ?_, rfl⟩
          · by_cases hp : cfg.partialSaveFails = true <;>
              simp [runFrom, hc, hf, hp, statusSeq_initiate]
          · intro j hj
            simp at hj
            subst hj
            rfl
      · cases hcode : c.isCode with
        | false =>
          obtain ⟨ihn, ihs⟩ := ih (i + 1) nb t
          constructor
          · intro hnone j hj
            simp only [runFrom, hc, hf, if_false, hcode, Bool.false_eq_true,
              update_status_snd, isTerminal_running, statusSeq_cons_status] at hnone hj ⊢
            rcases List.mem_cons.mp hj with hj | hj
            · subst hj; rfl
            · rcases List.mem_cons.mp hj with hj | hj
              · subst hj; rfl
              · exact ihn hnone j hj
          · intro f hsome
            simp only [runFrom, hc, hf, if_false, hcode, Bool.false_eq_true,
              update_status_snd, isTerminal_running] at hsome ⊢
            obtain ⟨pre, last, hseq, hpre, hlast⟩ := ihs f hsome
            refine ⟨(update_status clock t st cfg.notebook_path cfg.output_path
                cfg.execution_id nb "RUNNING" none none none (some i) none cfg.host).1 ::
              (update_status clock t st cfg.notebook_path cfg.output_path
                cfg.execution_id nb "RUNNING" none none none (some i) none cfg.host).1 ::
              pre, last, ?_, ?_, hlast⟩
            · simp [hseq]
            · intro j hj
              rcases List.mem_cons.mp hj with hj | hj
              · subst hj; rfl
              · rcases List.mem_cons.mp hj with hj | hj
                · subst hj; rfl
                · exact hpre j hj
        | true =>
          have hrf : c.runFails = false := by
            cases hr2 : c.runFails
            · rfl
            · exact absurd (by simp [hcode, hr2]) hf
          obtain ⟨ihn, ihs⟩ := ih (i + 1) (Notebook.mk (setExecAt nb.cells i)) t
          constructor
          · intro hnone j hj
            simp only [runFrom, hc, hf, if_false, hcode, hrf, Bool.false_eq_true,
              update_status_snd, isTerminal_running, statusSeq_cons_status] at hnone hj ⊢
            rcases List.mem_cons.mp hj with hj | hj
            · subst hj; rfl
            · rcases List.mem_cons.mp hj with hj | hj
              · subst hj; rfl
              · exact ihn hnone j hj
          · intro f hsome
            simp only [runFrom, hc, hf, if_false, hcode, hrf, Bool.false_eq_true,
              update_status_snd, isTerminal_running] at hsome ⊢
            obtain ⟨pre, last, hseq, hpre, hlast⟩ := ihs f hsome
            refine ⟨(update_status clock t st cfg.notebook_path cfg.output_path
                cfg.execution_id nb "RUNNING" none none none (some i) none cfg.host).1 ::
              (update_status clock t st cfg.notebook_path cfg.output_path
                cfg.execution_id (Notebook.mk (setExecAt nb.cells i)) "RUNNING"
                none none none (some i) none cfg.host).1 ::
              pre, last, ?_, ?_, hlast⟩
            · simp [hseq]
            · intro j hj
              rcases List.mem_cons.mp hj with hj | hj
              · subst hj; rfl
              · rcases List.mem_cons.mp hj with hj | hj
                · subst hj; rfl
                · exact hpre j hj

/-- Stability: once an index holds a terminal status, every later index
holds the same status. -/
def statusesStable (ss : List StatusJson) : Prop :=
  ∀ (a b : Nat) (ha : a < ss.length) (hb : b < ss.length), a ≤ b →
    isTerminalStatus (ss.get ⟨a, ha⟩).status = true →
    (ss.get ⟨b, hb⟩).status = (ss.get ⟨a, ha⟩).status

theorem stable_of_split (xs ys : List StatusJson) (s : String)
    (hx : ∀ x ∈ xs, isTerminalStatus x.status = false)
    (hy : ∀ y ∈ ys, y.status = s) : statusesStable (xs ++ ys) := by
  intro a b ha hb hab hterm
  have hmem : ∀ (k : Nat) (hk : k < (xs ++ ys).length), xs.length ≤ k →
      (xs ++ ys).get ⟨k, hk⟩ ∈ ys := by
    intro k hk hxk
    have hk2 : k - xs.length < ys.length := by
      have := hk
      simp only [List.length_append] at this
      omega
    have hg : (xs ++ ys).get ⟨k, hk⟩ = ys.get ⟨k - xs.length, hk2⟩ := by
      rw [List.get_eq_getElem, List.get_eq_getElem]
      exact List.getElem_append_right hxk
    rw [hg]
    exact List.get_mem ys _ hk2
  have hxa : xs.length ≤ a := by
    by_contra hlt
    push_neg at hlt
    have hg : (xs ++ ys).get ⟨a, ha⟩ = xs.get ⟨a, hlt⟩ := by
      rw [List.get_eq_getElem, List.get_eq_getElem]
      exact List.getElem_append_left hlt
    rw [hg] at hterm
    rw [hx _ (List.get_mem xs _ hlt)] at hterm
    exact Bool.false_ne_true hterm
  rw [hy _ (hmem b hb (le_trans hxa hab)), hy _ (hmem a ha hxa)]

/-- C3 (amended).  Once a terminal status value appears in the sequence of
status writes of a run, every later write carries the same terminal status
value (the endTime, by contrast, is recomputed at each terminal write — see
the counterexample). -/
theorem terminal_status_stable :
    ∀ (cfg : RunConfig) (clock : Nat → String) (nb0 : Notebook),
      statusesStable (statusSeq (mainRun cfg clock nb0)) := by
  intro cfg clock nb0
  obtain ⟨shn, shs⟩ := runFrom_status_shape cfg clock (clock 0) nb0.cells.length 0 nb0 1
  unfold mainRun
  dsimp only
  rw [show (update_status clock 1 (clock 0) cfg.notebook_path cfg.output_path
      cfg.execution_id nb0 "RUNNING" none none none none none cfg.host).2 = 1 from rfl]
  cases herr : (runFrom cfg clock (clock 0) nb0.cells.length 0 nb0 1).2.2.2 with
  | none =>
    simp only [herr, statusSeq_cons_status, statusSeq_append, statusSeq_cons_exit,
      statusSeq_nil, List.append_nil]
    refine stable_of_split
      ((update_status clock 1 (clock 0) cfg.notebook_path cfg.output_path
          cfg.execution_id nb0 "RUNNING" none none none none none cfg.host).1 ::
        statusSeq (runFrom cfg clock (clock 0) nb0.cells.length 0 nb0 1).2.2.1)
      [(update_status clock (runFrom cfg clock (clock 0) nb0.cells.length 0 nb0 1).2.1
          (clock 0) cfg.notebook_path cfg.output_path cfg.execution_id
          (runFrom cfg clock (clock 0) nb0.cells.length 0 nb0 1).1 "COMPLETED"
          none none none none none cfg.host).1]
      "COMPLETED" ?_ ?_
    · intro x hxm
      rcases List.mem_cons.mp hxm with hx1 | hx2
      · subst hx1; rfl
      · rw [shn herr x hx2]
        rfl
    · intro y hym
      rcases List.mem_cons.mp hym with h1 | h2
      · subst h1; rfl
      · exact absurd h2 (List.not_mem_nil y)
  | some f =>
    obtain ⟨pre, last, hseq, hpre, hlast⟩ := shs f herr
    by_cases hp : cfg.partialSaveFails = true <;>
    · simp only [herr, hp, statusSeq_cons_status, statusSeq_append, statusSeq_cons_exit,
        statusSeq_nil, statusSeq_cons_partial, statusSeq_initiate, List.append_nil,
        if_true, if_false]
      rw [hseq, List.append_assoc pre [last]]
      refine stable_of_split
        ((update_status clock 1 (clock 0) cfg.notebook_path cfg.output_path
            cfg.execution_id nb0 "RUNNING" none none none none none cfg.host).1 :: pre)
        (last :: [(update_status clock
            (runFrom cfg clock (clock 0) nb0.cells.length 0 nb0 1).2.1 (clock 0)
            cfg.notebook_path cfg.output_path cfg.execution_id
            (runFrom cfg clock (clock 0) nb0.cells.length 0 nb0 1).1 "FAILED"
            (some f.msg) (some (topErrorDetail f.msg cfg.host))
            (some (tracebackOf f.msg))
            (Option.map (fun p => p.1)
              (findUnexecAux (runFrom cfg clock (clock 0) nb0.cells.length 0 nb0 1).1.cells 0))
            ((findUnexecAux
                (runFrom cfg clock (clock 0) nb0.cells.length 0 nb0 1).1.cells 0).bind
              (fun p => extract_cell_error_output p.2))
            cfg.host).1])
        "FAILED" ?_ ?_
      · intro x hxm
        rcases List.mem_cons.mp hxm with hx1 | hx2
        · subst hx1; rfl
        · rw [hpre x hx2]
          rfl
      · intro y hym
        rcases List.mem_cons.mp hym with h1 | h2
        · subst h1; exact hlast
        · rcases List.mem_cons.mp h2 with h3 | h4
          · subst h3; rfl
          · exact absurd h4 (List.not_mem_nil y)

/-- C3 witness: on the concrete failing run, the write after the first
FAILED record carries the same status value. -/
theorem terminal_status_stable_witness :
    ((statusSeq (mainRun cfgEx clockEx nbFail)).get ⟨5, by decide⟩).status
      = ((statusSeq (mainRun cfgEx clockEx nbFail)).get ⟨4, by decide⟩).status :=
  terminal_status_stable cfgEx clockEx nbFail 4 5 (by decide) (by decide)
    (by decide) (by decide)

/-! ### Marker-write counting over whole runs -/

/-- The cell loop performs at most one marker write, with the well-known
key, and none at all when no cell fails. -/
theorem runFrom_markers (cfg : RunConfig) (clock : Nat → String) (st : String) :
    ∀ (fuel i : Nat) (nb : Notebook) (t : Nat),
      (markerWrites (runFrom cfg clock st fuel i nb t).2.2.1).length ≤ 1
      ∧ (∀ w ∈ markerWrites (runFrom cfg clock st fuel i nb t).2.2.1,
          w.2.1 = shutdownMarkerKey cfg.execution_id)
      ∧ ((runFrom cfg clock st fuel i nb t).2.2.2 = none →
          markerWrites (runFrom cfg clock st fuel i nb t).2.2.1 = []) := by
  intro fuel
  induction fuel with
  | zero =>
    intro i nb t
    simp [runFrom]
  | succ fuel ih =>
    intro i nb t
    cases hc : nb.cells[i]? with
    | none =>
      simp [runFrom, hc]
    | some c =>
      by_cases hf : (c.isCode && c.runFails) = true
      · obtain ⟨hl, hk⟩ := markerWrites_initiate cfg.senv clock
          (update_status clock
            (update_status clock t st cfg.notebook_path cfg.output_path cfg.execution_id
              nb "RUNNING" none none none (some i) none cfg.host).2
            st cfg.notebook_path cfg.output_path cfg.execution_id nb "FAILED"
            (some c.errMsg) (some (cellErrorDetail i c)) (some (tracebackOf c.errMsg))
            (some i) (extract_cell_error_output c) cfg.host).2
          (some cfg.bucket) cfg.execution_id
          ("Cell execution failed at index " ++ toString i)
        by_cases hp : cfg.partialSaveFails = true <;>
        · simp only [runFrom, hc, hf, if_true, hp, markerWrites_cons_status,
            markerWrites_append, markerWrites_cons_partial, markerWrites_nil,
            List.nil_append, if_true, if_false]
          refine ⟨?_, ?_, ?_⟩
          · simpa using hl
          · intro w hw
            apply hk
            simpa using hw
          · intro hnone
            simp at hnone
      · cases hcode : c.isCode with
        | false =>
          obtain ⟨ih1, ih2, ih3⟩ := ih (i + 1) nb t
          simp only [runFrom, hc, hf, if_false, hcode, Bool.false_eq_true,
            update_status_snd, isTerminal_running, markerWrites_cons_status]
          exact ⟨ih1, ih2, ih3⟩
        | true =>
          have hrf : c.runFails = false := by
            cases hr2 : c.runFails
            · rfl
            · exact absurd (by simp [hcode, hr2]) hf
          obtain ⟨ih1, ih2, ih3⟩ := ih (i + 1) (Notebook.mk (setExecAt nb.cells i)) t
          simp only [runFrom, hc, hf, if_false, hcode, hrf, Bool.false_eq_true,
            update_status_snd, isTerminal_running, markerWrites_cons_status]
          exact ⟨ih1, ih2, ih3⟩

/-- C2 (amended).  Over a whole run, the shutdown marker is written at most
twice — at most once by the cell-error path and at most once by the
top-level handler — and every write targets the same single well-known key
`executions/{executionId}/shutdown_marker.json`; there is no write-once
guard, and a cell failure does reach both paths (see the counterexample). -/
theorem shutdown_marker_single_key_bounded :
    ∀ (cfg : RunConfig) (clock : Nat → String) (nb0 : Notebook),
      (markerWrites (mainRun cfg clock nb0)).length ≤ 2
      ∧ (∀ w ∈ markerWrites (mainRun cfg clock nb0),
          w.2.1 = shutdownMarkerKey cfg.execution_id) := by
  intro cfg clock nb0
  obtain ⟨rl, rk, rn⟩ := runFrom_markers cfg clock (clock 0) nb0.cells.length 0 nb0 1
  unfold mainRun
  dsimp only
  rw [show (update_status clock 1 (clock 0) cfg.notebook_path cfg.output_path
      cfg.execution_id nb0 "RUNNING" none none none none none cfg.host).2 = 1 from rfl]
  cases herr : (runFrom cfg clock (clock 0) nb0.cells.length 0 nb0 1).2.2.2 with
  | none =>
    simp only [herr, markerWrites_cons_status, markerWrites_append,
      markerWrites_cons_exit, markerWrites_nil, List.append_nil]
    exact ⟨le_trans rl (by omega), rk⟩
  | some f =>
    obtain ⟨il, ik⟩ := markerWrites_initiate cfg.senv clock
      (update_status clock (runFrom cfg clock (clock 0) nb0.cells.length 0 nb0 1).2.1
        (clock 0) cfg.notebook_path cfg.output_path cfg.execution_id
        (runFrom cfg clock (clock 0) nb0.cells.length 0 nb0 1).1 "FAILED"
        (some f.msg) (some (topErrorDetail f.msg cfg.host)) (some (tracebackOf f.msg))
        (Option.map (fun p => p.1)
          (findUnexecAux (runFrom cfg clock (clock 0) nb0.cells.length 0 nb0 1).1.cells 0))
        ((findUnexecAux
            (runFrom cfg clock (clock 0) nb0.cells.length 0 nb0 1).1.cells 0).bind
          (fun p => extract_cell_error_output p.2))
        cfg.host).2
      (some cfg.bucket) cfg.execution_id
      ("Notebook execution failed: " ++ f.msg.take 200)
    by_cases hp : cfg.partialSaveFails = true <;>
    · simp only [herr, hp, markerWrites_cons_status, markerWrites_append,
        markerWrites_cons_exit, markerWrites_cons_partial, markerWrites_nil,
        List.append_nil, List.nil_append, if_true, if_false, Bool.false_eq_true]
      constructor
      · rw [List.length_append]
        omega
      · intro w hw
        rcases List.mem_append.mp hw with hw1 | hw2
        · exact rk w hw1
        · exact ik w hw2

/-- C2 witness: a successful run performs at most two (in fact zero) marker
writes. -/
theorem shutdown_marker_single_key_bounded_witness :
    (markerWrites (mainRun cfgEx clockEx nbOk)).length ≤ 2 :=
  (shutdown_marker_single_key_bounded cfgEx clockEx nbOk).1

/-- C6 (amended).  The bounded-source guarantee holds for
`currentCell.source` — a source of at most 500 characters appears unmodified
and a longer one appears as its first 500 characters plus an ellipsis — but
`errorDetail.cellSource` carries the raw cell source unmodified regardless
of its length. -/
theorem source_truncation_currentCell_only :
    ∀ (clock : Nat → String) (t : Nat) (st np op eid : String) (nb : Notebook)
      (host : HostInfo) (i : Nat) (c : Cell),
      nb.cells[i]? = some c → c.isCode = true →
      ((update_status clock t st np op eid nb "RUNNING" none none none (some i) none
          host).1.currentCell
        = some { index := i, source := truncate_source c.source })
      ∧ (c.source.length ≤ 500 → truncate_source c.source = c.source)
      ∧ (500 < c.source.length →
          truncate_source c.source = c.source.take 500 ++ "...")
      ∧ (cellErrorDetail i c).cellSource = some c.source := by
  intro clock t st np op eid nb host i c hc hcode
  refine ⟨?_, ?_, ?_, rfl⟩
  · simp [update_status, hc, hcode]
  · intro h
    unfold truncate_source
    rw [if_neg (by omega)]
  · intro h
    unfold truncate_source
    rw [if_pos h]

/-- C6 witness: the 600-character failing cell gets a truncated
`currentCell.source` but a raw `errorDetail.cellSource`. -/
theorem source_truncation_currentCell_only_witness :
    ((update_status clockEx 1 "T0" "np" "op" "e1" nb600 "RUNNING" none none none
        (some 0) none hostEx).1.currentCell
      = some { index := 0, source := truncate_source s600 })
    ∧ (cellErrorDetail 0 (badCell s600 "boom")).cellSource = some s600 := by
  obtain ⟨h1, _, _, h4⟩ := source_truncation_currentCell_only clockEx 1 "T0" "np" "op"
    "e1" nb600 hostEx 0 (badCell s600 "boom") rfl rfl
  exact ⟨h1, h4⟩

end NbExec
